import Mathlib

/-!
Verification development for the rust-web-push library.

The repository's public surface (src/lib.rs) re-exports the modules
`http_ece`, `message`, `vapid`, `error` and `client`; only `lib.rs` itself is
present, so the internals of those modules are modelled from the
specification (spec.md).  Bytes are modelled as `List Nat`; external
cryptographic primitives (P-256 ECDH, HKDF-style derivation, AES-128-GCM,
ECDSA signing) are collaborators of the library, not its code, and are
modelled as an abstract structure `CryptoPrims` whose fields state exactly
the interface properties the specification relies on.  Everything the
library itself does — length validation, size limits, padding, record
framing, header assembly, VAPID token assembly, builder validation — is
modelled concretely.
-/

/-- Modelled from the spec: the unified error enumeration of `error.rs`
(missing from src/), restricted to the core kinds of §7; `InvalidTopic` and
`InvalidUrgency` stand for the "validation error" of §4.4 step 3. -/
inductive WebPushError where
  | InvalidKey
  | InvalidUri
  | InvalidTTL
  | PayloadTooLarge
  | EncryptionFailed
  | InvalidTopic
  | InvalidUrgency
deriving DecidableEq, Repr

/-- Modelled from the spec: the `ContentEncoding` tag of `http_ece.rs`
(missing from src/), re-exported by lib.rs line 72. -/
inductive ContentEncoding where
  | AesGcm
  | Aes128Gcm
deriving DecidableEq, Repr

/-- The base64url alphabet (RFC 4648 §5). -/
def b64chars : List Char :=
  "ABCDEFGHIJKLMNOPQRSTUVWXYZabcdefghijklmnopqrstuvwxyz0123456789-_".toList

/-- Character for a 6-bit value. -/
def b64c (n : Nat) : Char := b64chars.getD n 'A'

/-- Unpadded base64url encoding of a byte list, 3 bytes to 4 characters,
with the shortened final group and no padding characters. -/
def b64urlAux : List Nat → List Char
  | [] => []
  | [a] => [b64c (a / 4), b64c (a % 4 * 16)]
  | [a, b] => [b64c (a / 4), b64c (a % 4 * 16 + b / 16), b64c (b % 16 * 4)]
  | a :: b :: c :: rest =>
      b64c (a / 4) :: b64c (a % 4 * 16 + b / 16) ::
      b64c (b % 16 * 4 + c / 64) :: b64c (c % 64) :: b64urlAux rest

/-- Unpadded base64url encoding, as a string. -/
def b64url (l : List Nat) : String := String.mk (b64urlAux l)

/-- Bytes of a string (code points; ASCII in all uses here). -/
def strBytes (s : String) : List Nat := s.toList.map Char.toNat

/-- Unpadded base64url encoding of a string's bytes. -/
def b64urlS (s : String) : String := b64url (strBytes s)

/-- Big-endian 4-byte encoding of a number. -/
def be32 (n : Nat) : List Nat :=
  [n / 2 ^ 24 % 256, n / 2 ^ 16 % 256, n / 2 ^ 8 % 256, n % 256]

/-- Modelled from the spec: `SubscriptionKeys` of `message.rs` (missing from
src/): the browser's `p256dh` public key and `auth` secret, immutable once
constructed (§3). -/
structure SubscriptionKeys where
  p256dh : List Nat
  auth : List Nat
deriving DecidableEq, Repr

/-- Modelled from the spec: the construction-time validation of
`SubscriptionKeys` (§3 invariants): `auth` must be exactly 16 bytes and
`p256dh` exactly 65 bytes, both checked before any cryptographic
operation; wrong lengths fail with `InvalidKey`. -/
def SubscriptionKeys.make (p256dh auth : List Nat) :
    Except WebPushError SubscriptionKeys :=
  if auth.length ≠ 16 then .error .InvalidKey
  else if p256dh.length ≠ 65 then .error .InvalidKey
  else .ok ⟨p256dh, auth⟩

/-- Modelled from the spec: `SubscriptionInfo` of `message.rs` (missing from
src/): endpoint URL plus subscription keys (§3). -/
structure SubscriptionInfo where
  endpoint : String
  keys : SubscriptionKeys
deriving DecidableEq, Repr

/-- The abstract interface of the external cryptographic collaborators
(P-256 key agreement, HKDF-style derivation, AES-128-GCM, ECDSA), together
with the interface properties the specification relies on (§4.1, §4.2,
glossary).  `derive` maps (shared secret, auth secret, local public key,
browser public key, salt, encoding) to the content-encryption key and
nonce. -/
structure CryptoPrims where
  pubOf : List Nat → List Nat
  ecdh : List Nat → List Nat → List Nat
  derive : List Nat → List Nat → List Nat → List Nat → List Nat →
    ContentEncoding → List Nat × List Nat
  aeadEnc : List Nat → List Nat → List Nat → List Nat
  aeadDec : List Nat → List Nat → List Nat → Option (List Nat)
  ecdsaSign : List Nat → List Nat → List Nat
  pubOf_len : ∀ p, (pubOf p).length = 65
  ecdh_comm : ∀ a b, ecdh a (pubOf b) = ecdh b (pubOf a)
  aead_inv : ∀ k n m, aeadDec k n (aeadEnc k n m) = some m
  aead_len : ∀ k n m, (aeadEnc k n m).length = m.length + 16
  sign_len : ∀ k m, (ecdsaSign k m).length = 64

/-- Modelled from the spec: the per-encoding maximum plaintext size of
`http_ece.rs` (missing from src/): 4096 bytes minus overhead — the
padding-length bytes (2 for `AesGcm`) or delimiter byte (1 for
`Aes128Gcm`), the 16-byte GCM tag, and for `Aes128Gcm` the 86-byte
embedded header (§4.2). -/
def maxPlaintextSize : ContentEncoding → Nat
  | .AesGcm => 4096 - 2 - 16
  | .Aes128Gcm => 4096 - 1 - 16 - 86

/-- Modelled from the spec: the padding rules of §4.2.  `AesGcm` puts a
2-byte big-endian padding length (this model pads with zero extra bytes,
so the value is 0) in front of the plaintext; `Aes128Gcm` appends the
delimiter byte 0x02 followed by zero padding bytes. -/
def pad : ContentEncoding → List Nat → List Nat
  | .AesGcm, pt => 0 :: 0 :: pt
  | .Aes128Gcm, pt => pt ++ [2]

/-- The RFC 8188 record size transmitted in the `Aes128Gcm` body header. -/
def recordSize : Nat := 4096

/-- The internal product of one `http_ece` encryption: the fresh salt and
local ephemeral public key that get transmitted to the browser, and the
body bytes. -/
structure EceOut where
  salt : List Nat
  localPub : List Nat
  body : List Nat
deriving DecidableEq, Repr

/-- Modelled from the spec: the ContentEncryptor of `http_ece.rs` (missing
from src/), §4.2.  Checks the size bound first (failing with
`PayloadTooLarge` before any cryptographic work), then performs key
agreement, derivation, AEAD encryption of the padded plaintext, and the
encoding-specific framing: `AesGcm` bodies are the bare ciphertext,
`Aes128Gcm` bodies carry the `salt || record_size || keyid_length ||
local_public_key` header block in front.  The fresh randomness (ephemeral
private key and 16-byte salt) is an explicit input. -/
def eceRaw (P : CryptoPrims) (enc : ContentEncoding)
    (keys : SubscriptionKeys) (localPriv salt pt : List Nat) : EceOut :=
  let localPub := P.pubOf localPriv
  let shared := P.ecdh localPriv keys.p256dh
  let kn := P.derive shared keys.auth localPub keys.p256dh salt enc
  let ct := P.aeadEnc kn.1 kn.2 (pad enc pt)
  match enc with
  | .AesGcm => ⟨salt, localPub, ct⟩
  | .Aes128Gcm =>
      ⟨salt, localPub,
        salt ++ be32 recordSize ++ [localPub.length] ++ localPub ++ ct⟩

/-- Modelled from the spec: the guarded entry point of the
ContentEncryptor — the size bound is checked first, so an oversized
plaintext fails with `PayloadTooLarge` before any cryptographic work. -/
def encryptEce (P : CryptoPrims) (enc : ContentEncoding)
    (keys : SubscriptionKeys) (localPriv salt pt : List Nat) :
    Except WebPushError EceOut :=
  if pt.length > maxPlaintextSize enc then .error .PayloadTooLarge
  else .ok (eceRaw P enc keys localPriv salt pt)

/-- Modelled from the spec: the inverse of `pad`, as the reference HTTP-ECE
decryption performs it — `AesGcm` reads the 2-byte big-endian padding
length and strips that many zero bytes, `Aes128Gcm` strips trailing zero
bytes and then the 0x02 delimiter. -/
def unpad : ContentEncoding → List Nat → Option (List Nat)
  | .AesGcm, m =>
      match m with
      | hi :: lo :: rest =>
          let padLen := hi * 256 + lo
          if padLen ≤ rest.length ∧ (rest.take padLen).all (· = 0) then
            some (rest.drop padLen)
          else none
      | _ => none
  | .Aes128Gcm, m =>
      match m.reverse.dropWhile (· == 0) with
      | 2 :: rest => some rest.reverse
      | _ => none

/-- Modelled from the spec: the reference HTTP-ECE decryption algorithm
(§8, first testable property), run by the browser: for `AesGcm` the salt
and local public key arrive through the `Encryption` and `Crypto-Key`
headers and the body is the ciphertext; for `Aes128Gcm` they are parsed
out of the body's embedded header block.  The browser re-derives the
shared secret from its own private key and the transmitted local public
key, re-runs the derivation, decrypts and unpads. -/
def decryptEce (P : CryptoPrims) (enc : ContentEncoding)
    (browserPriv auth hdrSalt hdrPub body : List Nat) : Option (List Nat) :=
  match enc with
  | .AesGcm =>
      let shared := P.ecdh browserPriv hdrPub
      let kn := P.derive shared auth hdrPub (P.pubOf browserPriv) hdrSalt enc
      (P.aeadDec kn.1 kn.2 body).bind (unpad .AesGcm)
  | .Aes128Gcm =>
      let salt := body.take 16
      let kidLen := body.getD 20 0
      let localPub := (body.drop 21).take kidLen
      let ct := body.drop (21 + kidLen)
      let shared := P.ecdh browserPriv localPub
      let kn := P.derive shared auth localPub (P.pubOf browserPriv) salt enc
      (P.aeadDec kn.1 kn.2 ct).bind (unpad .Aes128Gcm)

/-- Modelled from the spec: the `WebPushPayload` of `message.rs` (missing
from src/): ciphertext bytes, the crypto headers (empty for `Aes128Gcm`),
and the content-encoding tag (§3). -/
structure WebPushPayload where
  content : List Nat
  crypto_headers : List (String × String)
  content_encoding : ContentEncoding
deriving DecidableEq, Repr

/-- Modelled from the spec: rendering of one `http_ece` result into a
`WebPushPayload` (§4.2 record framing): `Aes128Gcm` embeds everything in
the body and has no crypto headers; `AesGcm` carries the salt and local
public key in the `Encryption` and `Crypto-Key` headers, base64url
encoded. -/
def renderPayload (enc : ContentEncoding) (o : EceOut) : WebPushPayload :=
  match enc with
  | .Aes128Gcm => ⟨o.body, [], enc⟩
  | .AesGcm =>
      ⟨o.body,
        [("Encryption", "salt=" ++ b64url o.salt),
         ("Crypto-Key", "dh=" ++ b64url o.localPub)], enc⟩

/-- Split a character list at the first occurrence of the scheme
separator "://", returning the scheme part and the remainder. -/
def schemeSplit : List Char → Option (List Char × List Char)
  | [] => none
  | ':' :: '/' :: '/' :: rest => some ([], rest)
  | c :: rest => (schemeSplit rest).map (fun p => (c :: p.1, p.2))

/-- Modelled from the spec: the scheme+host origin of an endpoint URL, as
VapidSigner derives the audience (§4.3); `none` when the input is not an
absolute URL with a scheme and host. -/
def origin (s : String) : Option String :=
  match schemeSplit s.toList with
  | none => none
  | some (sch, rest) =>
      let host := rest.takeWhile (· ≠ '/')
      if sch ≠ [] ∧ host ≠ [] then
        some (String.mk (sch ++ ':' :: '/' :: '/' :: host))
      else none

/-- The fixed JWT header of §4.3. -/
def headerJson : String := "\x7b\"typ\":\"JWT\",\"alg\":\"ES256\"\x7d"

/-- The JWT claims of §4.3: audience, expiry, optional subject. -/
def claimsJson (aud : String) (exp : Nat) (sub : Option String) : String :=
  "\x7b\"aud\":\"" ++ aud ++ "\",\"exp\":" ++ toString exp ++
    (match sub with
     | some s => ",\"sub\":\"" ++ s ++ "\""
     | none => "") ++ "\x7d"

/-- Modelled from the spec: `VapidSignature` of `vapid.rs` (missing from
src/): the `Authorization` header value and the legacy `Crypto-Key`
fragment (§3). -/
structure VapidSignature where
  auth_header : String
  crypto_key_header : String
deriving DecidableEq, Repr

/-- Modelled from the spec: `VapidSignatureBuilder` of `vapid.rs` (missing
from src/), re-exported by lib.rs line 73: signing key, endpoint (for the
audience), optional subject, optional expiry override in seconds from
issuance (§3, §4.3). -/
structure VapidSignatureBuilder where
  privKey : List Nat
  endpoint : String
  sub : Option String
  expIn : Option Nat
deriving DecidableEq, Repr

/-- The expiry offset a build will use: the override when given, otherwise
the 12-hour default (§3 invariants). -/
def VapidSignatureBuilder.expSecs (b : VapidSignatureBuilder) : Nat :=
  b.expIn.getD (12 * 60 * 60)

/-- Modelled from the spec: `VapidSignatureBuilder.build` (§4.3): derive
the audience from the endpoint's origin (`InvalidUri` when the endpoint is
not an absolute URL), validate that the expiry is in the future and at
most 24 hours ahead (`InvalidTTL` otherwise), build the JWT
`header.claims.signature` with unpadded base64url parts and a raw ECDSA
signature, and produce the `vapid t=<jwt>, k=<key>` header value plus the
legacy `p256ecdsa=<key>` fragment. -/
def VapidSignatureBuilder.build (P : CryptoPrims)
    (b : VapidSignatureBuilder) (now : Nat) :
    Except WebPushError VapidSignature :=
  match origin b.endpoint with
  | none => .error .InvalidUri
  | some aud =>
      if b.expSecs = 0 ∨ b.expSecs > 24 * 60 * 60 then .error .InvalidTTL
      else
        let exp := now + b.expSecs
        let signingInput :=
          b64urlS headerJson ++ "." ++ b64urlS (claimsJson aud exp b.sub)
        let sig := P.ecdsaSign b.privKey (strBytes signingInput)
        let jwt := signingInput ++ "." ++ b64url sig
        let pubKey := b64url (P.pubOf b.privKey)
        .ok ⟨"vapid t=" ++ jwt ++ ", k=" ++ pubKey,
             "p256ecdsa=" ++ pubKey⟩

/-- Modelled from the spec: the VAPID configuration held by the message
builder (signing key, subject, expiry override). -/
structure VapidConfig where
  privKey : List Nat
  sub : Option String
  expIn : Option Nat
deriving DecidableEq, Repr

/-- The fixed urgency enumeration of §4.4 step 3. -/
def urgencyLevels : List String := ["very-low", "low", "normal", "high"]

/-- Whether a character is allowed in a `Topic` token. -/
def topicChar (c : Char) : Bool := c.isAlphanum || c = '-' || c = '_'

/-- Modelled from the spec: `Topic` validation of §4.4 step 3 — a
bounded-length token of allowed characters (at most 32 characters from the
base64url alphabet, per RFC 8030). -/
def validTopic (t : String) : Bool :=
  t.length ≤ 32 && t.toList.all topicChar

/-- Modelled from the spec: `WebPushMessage` of `message.rs` (missing from
src/): endpoint, TTL, merged header set, optional payload (§3). -/
structure WebPushMessage where
  endpoint : String
  ttl : Int
  headers : List (String × String)
  payload : Option WebPushPayload
deriving DecidableEq, Repr

/-- Modelled from the spec: `WebPushMessageBuilder` of `message.rs`
(missing from src/), re-exported by lib.rs: subscription reference, TTL,
optional topic and urgency, optional payload with its encoding, optional
VAPID configuration (§4.4). -/
structure WebPushMessageBuilder where
  subscription : SubscriptionInfo
  ttl : Int
  topic : Option String
  urgency : Option String
  payload : Option (ContentEncoding × List Nat)
  vapid : Option VapidConfig
deriving DecidableEq, Repr

/-- Modelled from the spec: constructing a message builder from a
subscription is fallible (lib.rs line 25 calls `.unwrap()` on it): the
endpoint must parse as an absolute URL, otherwise `InvalidUri` (§4.3
validation, §7). -/
def WebPushMessageBuilder.new (info : SubscriptionInfo) :
    Except WebPushError WebPushMessageBuilder :=
  match origin info.endpoint with
  | none => .error .InvalidUri
  | some _ => .ok ⟨info, 0, none, none, none, none⟩

/-- Modelled from the spec: merging the VAPID public-key fragment into an
existing `Crypto-Key` header, comma separated, rather than overwriting it
(§4.2, §4.4 step 2). -/
def mergeCryptoKey (frag : String) :
    List (String × String) → List (String × String)
  | [] => []
  | (n, v) :: rest =>
      if n = "Crypto-Key" then (n, v ++ "," ++ frag) :: rest
      else (n, v) :: mergeCryptoKey frag rest

/-- Modelled from the spec: the §4.4 step-3 validation — TTL non-negative,
`Topic` a valid token when present, `Urgency` in the fixed enumeration
when present. -/
def validateParams (b : WebPushMessageBuilder) : Except WebPushError Unit :=
  if b.ttl < 0 then .error .InvalidTTL
  else
    match b.topic with
    | some t =>
        if validTopic t then
          match b.urgency with
          | some u =>
              if u ∈ urgencyLevels then .ok () else .error .InvalidUrgency
          | none => .ok ()
        else .error .InvalidTopic
    | none =>
        match b.urgency with
        | some u =>
            if u ∈ urgencyLevels then .ok () else .error .InvalidUrgency
        | none => .ok ()

/-- Modelled from the spec: header assembly of §4.4 — the payload's crypto
headers (with the VAPID fragment merged into `Crypto-Key` for `AesGcm`),
the `Authorization` header, then `Topic` and `Urgency`. -/
def assembleHeaders (b : WebPushMessageBuilder)
    (payload : Option WebPushPayload) (sig : Option VapidSignature) :
    List (String × String) :=
  let ch := match payload with
    | some p => p.crypto_headers
    | none => []
  let ch := match sig, b.payload with
    | some s, some (.AesGcm, _) => mergeCryptoKey s.crypto_key_header ch
    | _, _ => ch
  ch ++ (match sig with
         | some s => [("Authorization", s.auth_header)]
         | none => []) ++
    (match b.topic with
     | some t => [("Topic", t)]
     | none => []) ++
    (match b.urgency with
     | some u => [("Urgency", u)]
     | none => [])

/-- Modelled from the spec: `WebPushMessageBuilder.build` (§4.4): encrypt
the payload if one is set, build the VAPID signature if configured,
validate the parameters, and emit the immutable `WebPushMessage`.  The
fresh per-message randomness (ephemeral private key, 16-byte salt) and the
current time are explicit inputs. -/
def WebPushMessageBuilder.build (P : CryptoPrims)
    (b : WebPushMessageBuilder) (localPriv salt : List Nat) (now : Nat) :
    Except WebPushError WebPushMessage :=
  match (match b.payload with
         | none => Except.ok none
         | some (enc, pt) =>
             (encryptEce P enc b.subscription.keys localPriv salt pt).map
               (fun o => some (renderPayload enc o))) with
  | .error e => .error e
  | .ok payload =>
      match (match b.vapid with
             | none => Except.ok none
             | some cfg =>
                 (VapidSignatureBuilder.build P
                   ⟨cfg.privKey, b.subscription.endpoint, cfg.sub,
                    cfg.expIn⟩ now).map some) with
      | .error e => .error e
      | .ok sig =>
          match validateParams b with
          | .error e => .error e
          | .ok _ =>
              .ok ⟨b.subscription.endpoint, b.ttl,
                   assembleHeaders b payload sig, payload⟩

/-- Sum of a byte list (used only by the toy primitive instance). -/
def sumL (l : List Nat) : Nat := l.foldr (· + ·) 0

/-- A toy public-key map: 65-byte truncation/zero-extension. -/
def toyPub (p : List Nat) : List Nat :=
  p.take 65 ++ List.replicate (65 - p.length) 0

/-- A toy commutative key agreement. -/
def toyEcdh (priv pub : List Nat) : List Nat :=
  [sumL (toyPub priv) + sumL pub]

/-- A toy AEAD: plaintext followed by a 16-byte tag drawn from key and
nonce. -/
def toyAeadEnc (k n m : List Nat) : List Nat :=
  m ++ (k ++ n ++ List.replicate 16 0).take 16

def toyAeadDec (k n c : List Nat) : Option (List Nat) :=
  if c.length < 16 then none
  else if (k ++ n ++ List.replicate 16 0).take 16 = c.drop (c.length - 16)
  then some (c.take (c.length - 16))
  else none

/-- A toy 64-byte signature. -/
def toySign (k m : List Nat) : List Nat :=
  ((k ++ m) ++ List.replicate 64 0).take 64

/-- The toy instance of the cryptographic collaborators, used to witness
theorems that quantify over `CryptoPrims`. -/
def toyPrims : CryptoPrims :=
  ⟨toyPub, toyEcdh, fun _ _ _ _ salt _ => (salt, salt.take 12),
   toyAeadEnc, toyAeadDec, toySign,
   fun p => by simp [toyPub]; omega,
   fun a b => by simp [toyEcdh, Nat.add_comm],
   fun k n m => by
     have hT : ((k ++ n ++ List.replicate 16 0).take 16).length = 16 := by
       simp; omega
     set t := (k ++ n ++ List.replicate 16 0).take 16 with ht
     have hlen : (m ++ t).length = m.length + 16 := by simp [hT]
     have hd : (m ++ t).length - 16 = m.length := by omega
     simp only [toyAeadDec, toyAeadEnc, ← ht, hd, hlen]
     rw [if_neg (by omega)]
     simp only [Nat.add_sub_cancel]
     rw [List.drop_left, List.take_left, if_pos rfl],
   fun k n m => by simp [toyAeadEnc]; omega,
   fun k m => by simp [toySign]; omega⟩

theorem unpad_pad (enc : ContentEncoding) (pt : List Nat) :
    unpad enc (pad enc pt) = some pt := by
  cases enc with
  | AesGcm => simp [unpad, pad]
  | Aes128Gcm => simp [unpad, pad, List.dropWhile]

theorem ece128_parse_salt (salt lp ct : List Nat) (hsalt : salt.length = 16) :
    (salt ++ be32 recordSize ++ [lp.length] ++ lp ++ ct).take 16 = salt := by
  have h : salt ++ be32 recordSize ++ [lp.length] ++ lp ++ ct
      = salt ++ (be32 recordSize ++ ([lp.length] ++ (lp ++ ct))) := by
    simp [List.append_assoc]
  rw [h, ← hsalt]
  exact List.take_left _ _

theorem ece128_parse_kid (salt lp ct : List Nat) (hsalt : salt.length = 16) :
    (salt ++ be32 recordSize ++ [lp.length] ++ lp ++ ct).getD 20 0
      = lp.length := by
  have h : salt ++ be32 recordSize ++ [lp.length] ++ lp ++ ct
      = (salt ++ be32 recordSize) ++ ([lp.length] ++ (lp ++ ct)) := by
    simp [List.append_assoc]
  have hl : (salt ++ be32 recordSize).length = 20 := by simp [be32, hsalt]
  rw [h]
  simp only [List.getD_eq_getElem?_getD]
  rw [List.getElem?_append_right (by omega), hl]
  simp

theorem ece128_parse_pub (salt lp ct : List Nat) (hsalt : salt.length = 16) :
    ((salt ++ be32 recordSize ++ [lp.length] ++ lp ++ ct).drop 21).take
      lp.length = lp := by
  have h : salt ++ be32 recordSize ++ [lp.length] ++ lp ++ ct
      = ((salt ++ be32 recordSize) ++ [lp.length]) ++ (lp ++ ct) := by
    simp [List.append_assoc]
  have hl : ((salt ++ be32 recordSize) ++ [lp.length]).length = 21 := by
    simp [be32, hsalt]
  rw [h, ← hl, List.drop_left, List.take_left]

theorem ece128_parse_ct (salt lp ct : List Nat) (hsalt : salt.length = 16) :
    (salt ++ be32 recordSize ++ [lp.length] ++ lp ++ ct).drop
      (21 + lp.length) = ct := by
  have h : salt ++ be32 recordSize ++ [lp.length] ++ lp ++ ct
      = (((salt ++ be32 recordSize) ++ [lp.length]) ++ lp) ++ ct := by
    simp [List.append_assoc]
  have hl : (((salt ++ be32 recordSize) ++ [lp.length]) ++ lp).length
      = 21 + lp.length := by simp [be32, hsalt]; omega
  rw [h, ← hl, List.drop_left]

/-- C1: for every plaintext and every valid subscription key pair (a
p256dh that is the public key of some browser private key — 65 bytes by
`pubOf_len` — and a 16-byte auth secret), encrypting with the
ContentEncryptor and decrypting the produced wire data with the reference
HTTP-ECE algorithm, using the transmitted local public key and salt,
returns exactly the original plaintext, for both `AesGcm` and
`Aes128Gcm`. -/
theorem ece_encrypt_decrypt_roundtrip (P : CryptoPrims) (enc : ContentEncoding)
    (browserPriv localPriv auth salt pt : List Nat)
    (hauth : auth.length = 16) (hsalt : salt.length = 16)
    (hsz : pt.length ≤ maxPlaintextSize enc) :
    ∃ o : EceOut,
      encryptEce P enc ⟨P.pubOf browserPriv, auth⟩ localPriv salt pt
        = .ok o ∧
      decryptEce P enc browserPriv auth o.salt o.localPub o.body
        = some pt := by
  refine ⟨eceRaw P enc ⟨P.pubOf browserPriv, auth⟩ localPriv salt pt,
    by simp [encryptEce, Nat.not_lt.mpr hsz], ?_⟩
  cases enc with
  | AesGcm =>
      simp only [eceRaw, decryptEce]
      rw [P.ecdh_comm browserPriv localPriv, P.aead_inv]
      simp [unpad_pad]
  | Aes128Gcm =>
      simp only [eceRaw, decryptEce]
      rw [ece128_parse_salt _ _ _ hsalt, ece128_parse_kid _ _ _ hsalt,
          ece128_parse_pub _ _ _ hsalt, ece128_parse_ct _ _ _ hsalt,
          P.ecdh_comm browserPriv localPriv, P.aead_inv]
      simp [unpad_pad]


/-- Witness for C1: the round trip at concrete inputs (plaintext "test"),
for both encodings, under the toy primitive instance. -/
theorem ece_encrypt_decrypt_roundtrip_witness :
    (∃ o : EceOut,
      encryptEce toyPrims .AesGcm ⟨toyPrims.pubOf [1], List.replicate 16 9⟩
        [2] (List.replicate 16 3) [116, 101, 115, 116] = .ok o ∧
      decryptEce toyPrims .AesGcm [1] (List.replicate 16 9) o.salt o.localPub
        o.body = some [116, 101, 115, 116]) ∧
    (∃ o : EceOut,
      encryptEce toyPrims .Aes128Gcm ⟨toyPrims.pubOf [1], List.replicate 16 9⟩
        [2] (List.replicate 16 3) [116, 101, 115, 116] = .ok o ∧
      decryptEce toyPrims .Aes128Gcm [1] (List.replicate 16 9) o.salt
        o.localPub o.body = some [116, 101, 115, 116]) :=
  ⟨ece_encrypt_decrypt_roundtrip toyPrims .AesGcm [1] [2]
      (List.replicate 16 9) (List.replicate 16 3) [116, 101, 115, 116]
      (by decide) (by decide) (by decide),
   ece_encrypt_decrypt_roundtrip toyPrims .Aes128Gcm [1] [2]
      (List.replicate 16 9) (List.replicate 16 3) [116, 101, 115, 116]
      (by decide) (by decide) (by decide)⟩

/-- C2: a plaintext longer than 4096 bytes minus the encoding's overhead
fails with `PayloadTooLarge` for every choice of cryptographic
primitives — so before any cryptographic work is performed; a plaintext of
exactly the maximum size succeeds; one byte larger fails with
`PayloadTooLarge`. -/
theorem payload_size_boundary :
    (∀ (P : CryptoPrims) (enc : ContentEncoding) (keys : SubscriptionKeys)
        (localPriv salt pt : List Nat),
        pt.length > maxPlaintextSize enc →
        encryptEce P enc keys localPriv salt pt
          = .error .PayloadTooLarge) ∧
    (∀ (P : CryptoPrims) (enc : ContentEncoding) (keys : SubscriptionKeys)
        (localPriv salt pt : List Nat),
        pt.length = maxPlaintextSize enc →
        encryptEce P enc keys localPriv salt pt
          = .ok (eceRaw P enc keys localPriv salt pt)) ∧
    (∀ (P : CryptoPrims) (enc : ContentEncoding) (keys : SubscriptionKeys)
        (localPriv salt pt : List Nat),
        pt.length = maxPlaintextSize enc + 1 →
        encryptEce P enc keys localPriv salt pt
          = .error .PayloadTooLarge) := by
  refine ⟨?_, ?_, ?_⟩ <;> intro P enc keys localPriv salt pt h <;>
    simp [encryptEce, h]

/-- Witness for C2: the boundary at concrete sizes — 3994 and 3993 bytes
for `Aes128Gcm` (maximum 3993), 4079 bytes for `AesGcm` (maximum 4078). -/
theorem payload_size_boundary_witness :
    encryptEce toyPrims .Aes128Gcm ⟨List.replicate 65 4, List.replicate 16 9⟩
      [1] (List.replicate 16 3) (List.replicate 3994 0)
      = .error .PayloadTooLarge ∧
    encryptEce toyPrims .Aes128Gcm ⟨List.replicate 65 4, List.replicate 16 9⟩
      [1] (List.replicate 16 3) (List.replicate 3993 0)
      = .ok (eceRaw toyPrims .Aes128Gcm
          ⟨List.replicate 65 4, List.replicate 16 9⟩ [1]
          (List.replicate 16 3) (List.replicate 3993 0)) ∧
    encryptEce toyPrims .AesGcm ⟨List.replicate 65 4, List.replicate 16 9⟩
      [1] (List.replicate 16 3) (List.replicate 4079 0)
      = .error .PayloadTooLarge :=
  ⟨payload_size_boundary.1 toyPrims .Aes128Gcm _ _ _ _
      (by simp only [List.length_replicate, maxPlaintextSize]; omega),
   payload_size_boundary.2.1 toyPrims .Aes128Gcm _ _ _ _
      (by simp only [List.length_replicate, maxPlaintextSize]),
   payload_size_boundary.2.2 toyPrims .AesGcm _ _ _ _
      (by simp only [List.length_replicate, maxPlaintextSize])⟩

/-- C3: an auth secret whose length is not exactly 16 bytes, or a p256dh
key whose length is not exactly 65 bytes, fails with `InvalidKey` at
`SubscriptionKeys` construction time — the constructor performs no
cryptographic operation (it takes no cryptographic primitives at all). -/
theorem subscription_keys_length_check (p256dh auth : List Nat)
    (h : auth.length ≠ 16 ∨ p256dh.length ≠ 65) :
    SubscriptionKeys.make p256dh auth = .error .InvalidKey := by
  rcases h with h | h
  · simp [SubscriptionKeys.make, h]
  · by_cases ha : auth.length = 16
    · simp [SubscriptionKeys.make, ha, h]
    · simp [SubscriptionKeys.make, ha]

/-- Witness for C3: zero-length inputs and arbitrary wrong lengths (64-
and 66-byte p256dh, 17-byte auth) all fail with `InvalidKey`. -/
theorem subscription_keys_length_check_witness :
    SubscriptionKeys.make [] [] = .error .InvalidKey ∧
    SubscriptionKeys.make (List.replicate 64 4) (List.replicate 16 9)
      = .error .InvalidKey ∧
    SubscriptionKeys.make (List.replicate 66 4) (List.replicate 16 9)
      = .error .InvalidKey ∧
    SubscriptionKeys.make (List.replicate 65 4) (List.replicate 17 9)
      = .error .InvalidKey :=
  ⟨subscription_keys_length_check _ _ (Or.inl (by decide)),
   subscription_keys_length_check _ _ (Or.inr (by decide)),
   subscription_keys_length_check _ _ (Or.inr (by decide)),
   subscription_keys_length_check _ _ (Or.inl (by decide))⟩

/-- C4: an `Aes128Gcm` message body is the concatenation of the 16-byte
salt, the 4-byte big-endian record size, the 1-byte keyid length (65),
and the 65-byte local public key, followed by the AEAD ciphertext of the
plaintext padded with a single 0x02 delimiter byte and zero or more 0x00
bytes; and the payload's crypto-header set is empty. -/
theorem aes128gcm_body_layout (P : CryptoPrims) (keys : SubscriptionKeys)
    (localPriv salt pt : List Nat)
    (hsz : pt.length ≤ maxPlaintextSize .Aes128Gcm) :
    ∃ o : EceOut,
      encryptEce P .Aes128Gcm keys localPriv salt pt = .ok o ∧
      (∃ m : Nat,
        o.body = salt ++ be32 recordSize ++ [65] ++ P.pubOf localPriv ++
          P.aeadEnc
            (P.derive (P.ecdh localPriv keys.p256dh) keys.auth
              (P.pubOf localPriv) keys.p256dh salt .Aes128Gcm).1
            (P.derive (P.ecdh localPriv keys.p256dh) keys.auth
              (P.pubOf localPriv) keys.p256dh salt .Aes128Gcm).2
            (pt ++ [2] ++ List.replicate m 0)) ∧
      (renderPayload .Aes128Gcm o).crypto_headers = [] := by
  refine ⟨eceRaw P .Aes128Gcm keys localPriv salt pt,
    by simp [encryptEce, Nat.not_lt.mpr hsz], ⟨0, ?_⟩, rfl⟩
  simp [eceRaw, pad, P.pubOf_len]

/-- Witness for C4: the layout at concrete inputs under the toy
instance. -/
theorem aes128gcm_body_layout_witness :
    ∃ o : EceOut,
      encryptEce toyPrims .Aes128Gcm
        ⟨List.replicate 65 4, List.replicate 16 9⟩ [1]
        (List.replicate 16 3) [116, 101, 115, 116] = .ok o ∧
      (∃ m : Nat,
        o.body = List.replicate 16 3 ++ be32 recordSize ++ [65] ++
          toyPrims.pubOf [1] ++
          toyPrims.aeadEnc
            (toyPrims.derive (toyPrims.ecdh [1] (List.replicate 65 4))
              (List.replicate 16 9) (toyPrims.pubOf [1])
              (List.replicate 65 4) (List.replicate 16 3) .Aes128Gcm).1
            (toyPrims.derive (toyPrims.ecdh [1] (List.replicate 65 4))
              (List.replicate 16 9) (toyPrims.pubOf [1])
              (List.replicate 65 4) (List.replicate 16 3) .Aes128Gcm).2
            ([116, 101, 115, 116] ++ [2] ++ List.replicate m 0)) ∧
      (renderPayload .Aes128Gcm o).crypto_headers = [] :=
  aes128gcm_body_layout toyPrims ⟨List.replicate 65 4, List.replicate 16 9⟩
    [1] (List.replicate 16 3) [116, 101, 115, 116] (by decide)

/-- C6: a VAPID signature built from a signing key and an absolute
endpoint URL produces a token of the form header.claims.signature — the
header and claims base64url-encoded without padding (the encoder `b64url`
emits no padding characters), the signature the raw 64-byte ECDSA output
(`sign_len`), the `aud` claim exactly the scheme+host origin of the
endpoint — and an `Authorization` value of the form
`vapid t=<jwt>, k=<base64url(public key)>`. -/
theorem vapid_token_form (P : CryptoPrims) (b : VapidSignatureBuilder)
    (now : Nat) (aud : String)
    (ho : origin b.endpoint = some aud)
    (hlo : 0 < b.expSecs) (hhi : b.expSecs ≤ 24 * 60 * 60) :
    ∃ sig : VapidSignature,
      VapidSignatureBuilder.build P b now = .ok sig ∧
      sig.auth_header
        = "vapid t=" ++
            (b64urlS headerJson ++ "." ++
              b64urlS (claimsJson aud (now + b.expSecs) b.sub) ++ "." ++
              b64url (P.ecdsaSign b.privKey (strBytes
                (b64urlS headerJson ++ "." ++
                  b64urlS (claimsJson aud (now + b.expSecs) b.sub))))) ++
          ", k=" ++ b64url (P.pubOf b.privKey) ∧
      (P.ecdsaSign b.privKey (strBytes
        (b64urlS headerJson ++ "." ++
          b64urlS (claimsJson aud (now + b.expSecs) b.sub)))).length
        = 64 := by
  have hg : ¬(b.expSecs = 0 ∨ b.expSecs > 24 * 60 * 60) := by omega
  refine ⟨⟨"vapid t=" ++
      (b64urlS headerJson ++ "." ++
        b64urlS (claimsJson aud (now + b.expSecs) b.sub) ++ "." ++
        b64url (P.ecdsaSign b.privKey (strBytes
          (b64urlS headerJson ++ "." ++
            b64urlS (claimsJson aud (now + b.expSecs) b.sub))))) ++
      ", k=" ++ b64url (P.pubOf b.privKey),
      "p256ecdsa=" ++ b64url (P.pubOf b.privKey)⟩, ?_, rfl,
    P.sign_len _ _⟩
  simp [VapidSignatureBuilder.build, ho, hg]

/-- Witness for C6: the token form at a concrete builder (default 12-hour
expiry, subject set) under the toy instance. -/
theorem vapid_token_form_witness :
    ∃ sig : VapidSignature,
      VapidSignatureBuilder.build toyPrims
        ⟨[7], "https://push.example.com/abc/def", some "mailto:a@b.c", none⟩
        1000 = .ok sig ∧
      sig.auth_header
        = "vapid t=" ++
            (b64urlS headerJson ++ "." ++
              b64urlS (claimsJson "https://push.example.com"
                (1000 + (⟨[7], "https://push.example.com/abc/def",
                  some "mailto:a@b.c", none⟩ :
                    VapidSignatureBuilder).expSecs) (some "mailto:a@b.c")) ++
              "." ++
              b64url (toyPrims.ecdsaSign [7] (strBytes
                (b64urlS headerJson ++ "." ++
                  b64urlS (claimsJson "https://push.example.com"
                    (1000 + (⟨[7], "https://push.example.com/abc/def",
                      some "mailto:a@b.c", none⟩ :
                        VapidSignatureBuilder).expSecs)
                    (some "mailto:a@b.c")))))) ++
          ", k=" ++ b64url (toyPrims.pubOf [7]) ∧
      (toyPrims.ecdsaSign [7] (strBytes
        (b64urlS headerJson ++ "." ++
          b64urlS (claimsJson "https://push.example.com"
            (1000 + (⟨[7], "https://push.example.com/abc/def",
              some "mailto:a@b.c", none⟩ :
                VapidSignatureBuilder).expSecs)
            (some "mailto:a@b.c"))))).length = 64 :=
  vapid_token_form toyPrims
    ⟨[7], "https://push.example.com/abc/def", some "mailto:a@b.c", none⟩
    1000 "https://push.example.com" (by decide) (by decide) (by decide)

/-- C7: a successful VAPID build has its expiry strictly in the future
and at most 24 hours from issuance; the builder defaults to 12 hours; a
requested expiry 48 hours ahead fails with `InvalidTTL` (the model
rejects rather than clamps, per §4.3 of the spec). -/
theorem vapid_exp_policy (P : CryptoPrims) (b : VapidSignatureBuilder)
    (now : Nat) (aud : String) (ho : origin b.endpoint = some aud) :
    (∀ sig, VapidSignatureBuilder.build P b now = .ok sig →
      now < now + b.expSecs ∧ now + b.expSecs ≤ now + 24 * 60 * 60) ∧
    (b.expIn = none → b.expSecs = 12 * 60 * 60) ∧
    (b.expIn = some (48 * 60 * 60) →
      VapidSignatureBuilder.build P b now = .error .InvalidTTL) := by
  refine ⟨?_, ?_, ?_⟩
  · intro sig h
    simp only [VapidSignatureBuilder.build, ho] at h
    by_cases hg : b.expSecs = 0 ∨ b.expSecs > 24 * 60 * 60
    · rw [if_pos hg] at h; exact absurd h (by simp)
    · push_neg at hg; omega
  · intro h; simp [VapidSignatureBuilder.expSecs, h]
  · intro h
    have hg : b.expSecs = 0 ∨ b.expSecs > 24 * 60 * 60 := by
      right; simp [VapidSignatureBuilder.expSecs, h]
    simp [VapidSignatureBuilder.build, ho, hg]

/-- Witness for C7: the policy instantiated at a concrete builder with a
48-hour override and at one with the default expiry. -/
theorem vapid_exp_policy_witness :
    ((∀ sig, VapidSignatureBuilder.build toyPrims
        ⟨[7], "https://push.example.com/a", none, some (48 * 60 * 60)⟩ 5
        = .ok sig →
      5 < 5 + (⟨[7], "https://push.example.com/a", none,
          some (48 * 60 * 60)⟩ : VapidSignatureBuilder).expSecs ∧
      5 + (⟨[7], "https://push.example.com/a", none,
          some (48 * 60 * 60)⟩ : VapidSignatureBuilder).expSecs
        ≤ 5 + 24 * 60 * 60) ∧
     ((⟨[7], "https://push.example.com/a", none, some (48 * 60 * 60)⟩ :
        VapidSignatureBuilder).expIn = none →
      (⟨[7], "https://push.example.com/a", none, some (48 * 60 * 60)⟩ :
        VapidSignatureBuilder).expSecs = 12 * 60 * 60) ∧
     ((⟨[7], "https://push.example.com/a", none, some (48 * 60 * 60)⟩ :
        VapidSignatureBuilder).expIn = some (48 * 60 * 60) →
      VapidSignatureBuilder.build toyPrims
        ⟨[7], "https://push.example.com/a", none, some (48 * 60 * 60)⟩ 5
        = .error .InvalidTTL)) ∧
    ((⟨[7], "https://push.example.com/a", none, none⟩ :
        VapidSignatureBuilder).expIn = none →
      (⟨[7], "https://push.example.com/a", none, none⟩ :
        VapidSignatureBuilder).expSecs = 12 * 60 * 60) :=
  ⟨vapid_exp_policy toyPrims
      ⟨[7], "https://push.example.com/a", none, some (48 * 60 * 60)⟩ 5
      "https://push.example.com" (by decide),
   (vapid_exp_policy toyPrims
      ⟨[7], "https://push.example.com/a", none, none⟩ 5
      "https://push.example.com" (by decide)).2.1⟩

/-- C10: constructing a `WebPushMessageBuilder` from a `SubscriptionInfo`
is itself fallible and returns a result value (lib.rs line 25 unwraps
it): an invalid endpoint fails with `InvalidUri` before any payload is
set or `build` is called, while a well-formed endpoint succeeds. -/
theorem builder_construction_fallible :
    WebPushMessageBuilder.new
      ⟨"not-a-valid-endpoint", ⟨List.replicate 65 4, List.replicate 16 9⟩⟩
      = .error .InvalidUri ∧
    WebPushMessageBuilder.new
      ⟨"https://push.example.com/abc",
        ⟨List.replicate 65 4, List.replicate 16 9⟩⟩
      = .ok ⟨⟨"https://push.example.com/abc",
          ⟨List.replicate 65 4, List.replicate 16 9⟩⟩,
        0, none, none, none, none⟩ := by
  constructor <;> rfl

/-- C9: on `build()`, the message builder rejects a negative TTL with
`InvalidTTL`, rejects a `Topic` that is not a bounded-length token of
allowed characters with `InvalidTopic`, rejects an `Urgency` outside the
fixed enumeration with `InvalidUrgency`, and succeeds for every level in
the enumeration (very-low, low, normal, high). -/
theorem builder_validation (P : CryptoPrims) (info : SubscriptionInfo)
    (localPriv salt : List Nat) (now : Nat) :
    (∀ (ttl : Int) (topic urgency : Option String), ttl < 0 →
      WebPushMessageBuilder.build P ⟨info, ttl, topic, urgency, none, none⟩
        localPriv salt now = .error .InvalidTTL) ∧
    (∀ (ttl : Int) (t : String) (urgency : Option String), 0 ≤ ttl →
      validTopic t = false →
      WebPushMessageBuilder.build P ⟨info, ttl, some t, urgency, none, none⟩
        localPriv salt now = .error .InvalidTopic) ∧
    (∀ (ttl : Int) (u : String), 0 ≤ ttl → u ∉ urgencyLevels →
      WebPushMessageBuilder.build P ⟨info, ttl, none, some u, none, none⟩
        localPriv salt now = .error .InvalidUrgency) ∧
    (∀ (ttl : Int) (u : String), 0 ≤ ttl → u ∈ urgencyLevels →
      WebPushMessageBuilder.build P ⟨info, ttl, none, some u, none, none⟩
        localPriv salt now
        = .ok ⟨info.endpoint, ttl, [("Urgency", u)], none⟩) := by
  refine ⟨?_, ?_, ?_, ?_⟩
  · intro ttl topic urgency h
    simp [WebPushMessageBuilder.build, validateParams, h]
  · intro ttl t urgency h ht
    have h0 : ¬(ttl < 0) := by omega
    simp [WebPushMessageBuilder.build, validateParams, h0, ht]
  · intro ttl u h hu
    have h0 : ¬(ttl < 0) := by omega
    simp [WebPushMessageBuilder.build, validateParams, h0, hu]
  · intro ttl u h hu
    have h0 : ¬(ttl < 0) := by omega
    simp [WebPushMessageBuilder.build, validateParams, h0, hu,
      assembleHeaders]

/-- Witness for C9: concrete rejections (TTL −1, topic with a space and
punctuation, urgency "asap") and concrete successes for all four
documented urgency levels. -/
theorem builder_validation_witness :
    (WebPushMessageBuilder.build toyPrims
      ⟨⟨"https://push.example.com/a",
          ⟨List.replicate 65 4, List.replicate 16 9⟩⟩,
        -1, none, none, none, none⟩ [1] (List.replicate 16 3) 0
      = .error .InvalidTTL) ∧
    (WebPushMessageBuilder.build toyPrims
      ⟨⟨"https://push.example.com/a",
          ⟨List.replicate 65 4, List.replicate 16 9⟩⟩,
        0, some "bad topic!", none, none, none⟩ [1] (List.replicate 16 3) 0
      = .error .InvalidTopic) ∧
    (WebPushMessageBuilder.build toyPrims
      ⟨⟨"https://push.example.com/a",
          ⟨List.replicate 65 4, List.replicate 16 9⟩⟩,
        0, none, some "asap", none, none⟩ [1] (List.replicate 16 3) 0
      = .error .InvalidUrgency) ∧
    (WebPushMessageBuilder.build toyPrims
      ⟨⟨"https://push.example.com/a",
          ⟨List.replicate 65 4, List.replicate 16 9⟩⟩,
        0, none, some "very-low", none, none⟩ [1] (List.replicate 16 3) 0
      = .ok ⟨"https://push.example.com/a", 0,
          [("Urgency", "very-low")], none⟩) ∧
    (WebPushMessageBuilder.build toyPrims
      ⟨⟨"https://push.example.com/a",
          ⟨List.replicate 65 4, List.replicate 16 9⟩⟩,
        0, none, some "low", none, none⟩ [1] (List.replicate 16 3) 0
      = .ok ⟨"https://push.example.com/a", 0,
          [("Urgency", "low")], none⟩) ∧
    (WebPushMessageBuilder.build toyPrims
      ⟨⟨"https://push.example.com/a",
          ⟨List.replicate 65 4, List.replicate 16 9⟩⟩,
        0, none, some "normal", none, none⟩ [1] (List.replicate 16 3) 0
      = .ok ⟨"https://push.example.com/a", 0,
          [("Urgency", "normal")], none⟩) ∧
    (WebPushMessageBuilder.build toyPrims
      ⟨⟨"https://push.example.com/a",
          ⟨List.replicate 65 4, List.replicate 16 9⟩⟩,
        0, none, some "high", none, none⟩ [1] (List.replicate 16 3) 0
      = .ok ⟨"https://push.example.com/a", 0,
          [("Urgency", "high")], none⟩) :=
  ⟨(builder_validation toyPrims
      ⟨"https://push.example.com/a",
        ⟨List.replicate 65 4, List.replicate 16 9⟩⟩
      [1] (List.replicate 16 3) 0).1 (-1) none none (by decide),
   (builder_validation toyPrims
      ⟨"https://push.example.com/a",
        ⟨List.replicate 65 4, List.replicate 16 9⟩⟩
      [1] (List.replicate 16 3) 0).2.1 0 "bad topic!" none (by decide)
      (by decide),
   (builder_validation toyPrims
      ⟨"https://push.example.com/a",
        ⟨List.replicate 65 4, List.replicate 16 9⟩⟩
      [1] (List.replicate 16 3) 0).2.2.1 0 "asap" (by decide) (by decide),
   (builder_validation toyPrims
      ⟨"https://push.example.com/a",
        ⟨List.replicate 65 4, List.replicate 16 9⟩⟩
      [1] (List.replicate 16 3) 0).2.2.2 0 "very-low" (by decide)
      (by decide),
   (builder_validation toyPrims
      ⟨"https://push.example.com/a",
        ⟨List.replicate 65 4, List.replicate 16 9⟩⟩
      [1] (List.replicate 16 3) 0).2.2.2 0 "low" (by decide) (by decide),
   (builder_validation toyPrims
      ⟨"https://push.example.com/a",
        ⟨List.replicate 65 4, List.replicate 16 9⟩⟩
      [1] (List.replicate 16 3) 0).2.2.2 0 "normal" (by decide)
      (by decide),
   (builder_validation toyPrims
      ⟨"https://push.example.com/a",
        ⟨List.replicate 65 4, List.replicate 16 9⟩⟩
      [1] (List.replicate 16 3) 0).2.2.2 0 "high" (by decide) (by decide)⟩

/-- C5: a message built with the legacy `AesGcm` encoding and a payload
prefixes the plaintext with a 2-byte big-endian padding length (zero
padding, so bytes 0x00 0x00) and that many zero bytes before encryption;
the body is exactly the ciphertext; key material travels in the two
headers `Encryption: salt=<base64url(salt)>` and
`Crypto-Key: dh=<base64url(local public key)>`; and the configured VAPID
public-key fragment is merged into the existing `Crypto-Key` header,
comma separated, rather than overwriting it. -/
theorem aesgcm_headers_and_vapid_merge (P : CryptoPrims)
    (info : SubscriptionInfo) (ttl : Int) (cfg : VapidConfig)
    (localPriv salt pt : List Nat) (now : Nat) (aud : String)
    (hsz : pt.length ≤ maxPlaintextSize .AesGcm)
    (httl : 0 ≤ ttl)
    (ho : origin info.endpoint = some aud)
    (hexp : cfg.expIn = none) :
    WebPushMessageBuilder.build P
      ⟨info, ttl, none, none, some (.AesGcm, pt), some cfg⟩
      localPriv salt now
      = .ok ⟨info.endpoint, ttl,
          [("Encryption", "salt=" ++ b64url salt),
           ("Crypto-Key", "dh=" ++ b64url (P.pubOf localPriv) ++ "," ++
             ("p256ecdsa=" ++ b64url (P.pubOf cfg.privKey))),
           ("Authorization",
             "vapid t=" ++
               (b64urlS headerJson ++ "." ++
                 b64urlS (claimsJson aud (now + 12 * 60 * 60) cfg.sub) ++
                 "." ++
                 b64url (P.ecdsaSign cfg.privKey (strBytes
                   (b64urlS headerJson ++ "." ++
                     b64urlS (claimsJson aud (now + 12 * 60 * 60)
                       cfg.sub))))) ++
               ", k=" ++ b64url (P.pubOf cfg.privKey))],
          some ⟨
            P.aeadEnc
              (P.derive (P.ecdh localPriv info.keys.p256dh) info.keys.auth
                (P.pubOf localPriv) info.keys.p256dh salt .AesGcm).1
              (P.derive (P.ecdh localPriv info.keys.p256dh) info.keys.auth
                (P.pubOf localPriv) info.keys.p256dh salt .AesGcm).2
              (0 :: 0 :: pt),
            [("Encryption", "salt=" ++ b64url salt),
             ("Crypto-Key", "dh=" ++ b64url (P.pubOf localPriv))],
            .AesGcm⟩⟩ := by
  have h0 : ¬(ttl < 0) := by omega
  have hns : ¬(pt.length > maxPlaintextSize ContentEncoding.AesGcm) := by
    omega
  simp [WebPushMessageBuilder.build, encryptEce, hns, eceRaw, renderPayload,
    pad, VapidSignatureBuilder.build, VapidSignatureBuilder.expSecs, hexp,
    ho, validateParams, h0, assembleHeaders, mergeCryptoKey, Except.map]

/-- Witness for C5: the header layout and the comma-separated `Crypto-Key`
merge at concrete inputs under the toy instance. -/
theorem aesgcm_headers_and_vapid_merge_witness :
    WebPushMessageBuilder.build toyPrims
      ⟨⟨"https://push.example.com/a",
          ⟨List.replicate 65 4, List.replicate 16 9⟩⟩,
        0, none, none, some (.AesGcm, [116, 101, 115, 116]),
        some ⟨[7], none, none⟩⟩ [2] (List.replicate 16 3) 0
      = .ok ⟨"https://push.example.com/a", 0,
          [("Encryption", "salt=" ++ b64url (List.replicate 16 3)),
           ("Crypto-Key", "dh=" ++ b64url (toyPrims.pubOf [2]) ++ "," ++
             ("p256ecdsa=" ++ b64url (toyPrims.pubOf [7]))),
           ("Authorization",
             "vapid t=" ++
               (b64urlS headerJson ++ "." ++
                 b64urlS (claimsJson "https://push.example.com"
                   (0 + 12 * 60 * 60) none) ++ "." ++
                 b64url (toyPrims.ecdsaSign [7] (strBytes
                   (b64urlS headerJson ++ "." ++
                     b64urlS (claimsJson "https://push.example.com"
                       (0 + 12 * 60 * 60) none))))) ++
               ", k=" ++ b64url (toyPrims.pubOf [7]))],
          some ⟨
            toyPrims.aeadEnc
              (toyPrims.derive (toyPrims.ecdh [2] (List.replicate 65 4))
                (List.replicate 16 9) (toyPrims.pubOf [2])
                (List.replicate 65 4) (List.replicate 16 3) .AesGcm).1
              (toyPrims.derive (toyPrims.ecdh [2] (List.replicate 65 4))
                (List.replicate 16 9) (toyPrims.pubOf [2])
                (List.replicate 65 4) (List.replicate 16 3) .AesGcm).2
              (0 :: 0 :: [116, 101, 115, 116]),
            [("Encryption", "salt=" ++ b64url (List.replicate 16 3)),
             ("Crypto-Key", "dh=" ++ b64url (toyPrims.pubOf [2]))],
            .AesGcm⟩⟩ :=
  aesgcm_headers_and_vapid_merge toyPrims
    ⟨"https://push.example.com/a",
      ⟨List.replicate 65 4, List.replicate 16 9⟩⟩
    0 ⟨[7], none, none⟩ [2] (List.replicate 16 3) [116, 101, 115, 116] 0
    "https://push.example.com" (by decide) (by decide) (by decide)
    (by decide)

theorem toy_tag_eq (sa n : List Nat) (ha : sa.length = 16) :
    (sa ++ n ++ List.replicate 16 0).take 16 = sa := by
  have h : sa ++ n ++ List.replicate 16 0
      = sa ++ (n ++ List.replicate 16 0) := by simp
  rw [h, ← ha]
  exact List.take_left _ _

/-- For the toy AEAD, the encryption pipeline is salt injective: two
16-byte salts that differ produce different ciphertexts for the same
message (the derived key is the salt and the tag determines it). -/
theorem toy_salt_inj (sa sb m : List Nat) (ha : sa.length = 16)
    (hb : sb.length = 16) (hne : sa ≠ sb) :
    toyAeadEnc sa (sa.take 12) m ≠ toyAeadEnc sb (sb.take 12) m := by
  intro h
  apply hne
  simp only [toyAeadEnc] at h
  rw [toy_tag_eq sa (sa.take 12) ha, toy_tag_eq sb (sb.take 12) hb] at h
  exact List.append_cancel_left h

/-- C8: two encryptions of the same plaintext under the same subscription
with independently drawn fresh randomness (distinct salts, distinct
ephemeral private keys) produce outputs whose transmitted salt is exactly
the randomness drawn for that invocation (nothing cached across builds),
whose salts differ, whose ephemeral key pairs differ, and whose bodies
differ — the latter for `AesGcm` under the hypothesis that the
derive-then-encrypt pipeline of the primitives is salt-injective for this
plaintext (true of real AEADs up to negligible probability, and of the
toy instance exactly). -/
theorem ece_freshness (P : CryptoPrims) (enc : ContentEncoding)
    (keys : SubscriptionKeys) (priv1 salt1 priv2 salt2 pt : List Nat)
    (h1 : salt1.length = 16) (h2 : salt2.length = 16)
    (hs : salt1 ≠ salt2) (hp : priv1 ≠ priv2)
    (hsz : pt.length ≤ maxPlaintextSize enc)
    (hinj : ∀ lpa lpb sa sb : List Nat, sa.length = 16 → sb.length = 16 →
      sa ≠ sb →
      P.aeadEnc
        (P.derive (P.ecdh priv1 keys.p256dh) keys.auth lpa keys.p256dh
          sa enc).1
        (P.derive (P.ecdh priv1 keys.p256dh) keys.auth lpa keys.p256dh
          sa enc).2 (pad enc pt)
      ≠ P.aeadEnc
        (P.derive (P.ecdh priv2 keys.p256dh) keys.auth lpb keys.p256dh
          sb enc).1
        (P.derive (P.ecdh priv2 keys.p256dh) keys.auth lpb keys.p256dh
          sb enc).2 (pad enc pt)) :
    ∃ o1 o2 : EceOut,
      encryptEce P enc keys priv1 salt1 pt = .ok o1 ∧
      encryptEce P enc keys priv2 salt2 pt = .ok o2 ∧
      o1.salt = salt1 ∧ o2.salt = salt2 ∧
      o1.localPub = P.pubOf priv1 ∧ o2.localPub = P.pubOf priv2 ∧
      o1.salt ≠ o2.salt ∧
      (priv1, o1.localPub) ≠ (priv2, o2.localPub) ∧
      o1.body ≠ o2.body := by
  refine ⟨eceRaw P enc keys priv1 salt1 pt, eceRaw P enc keys priv2 salt2 pt,
    by simp [encryptEce, Nat.not_lt.mpr hsz],
    by simp [encryptEce, Nat.not_lt.mpr hsz], ?_, ?_, ?_, ?_, ?_, ?_, ?_⟩
  · cases enc <;> rfl
  · cases enc <;> rfl
  · cases enc <;> rfl
  · cases enc <;> rfl
  · cases enc <;> simpa [eceRaw] using hs
  · exact fun h => hp (congrArg Prod.fst h)
  · cases enc with
    | AesGcm =>
        simpa [eceRaw] using
          hinj (P.pubOf priv1) (P.pubOf priv2) salt1 salt2 h1 h2 hs
    | Aes128Gcm =>
        simp only [eceRaw]
        intro h
        apply hs
        have ht := congrArg (List.take 16) h
        rwa [ece128_parse_salt _ _ _ h1, ece128_parse_salt _ _ _ h2] at ht

/-- Witness for C8: two concrete encryptions with distinct salts and
distinct ephemeral keys, under the toy instance, for both encodings. -/
theorem ece_freshness_witness :
    (∃ o1 o2 : EceOut,
      encryptEce toyPrims .AesGcm ⟨List.replicate 65 4, List.replicate 16 9⟩
        [1] (List.replicate 16 3) [116, 101, 115, 116] = .ok o1 ∧
      encryptEce toyPrims .AesGcm ⟨List.replicate 65 4, List.replicate 16 9⟩
        [2] (List.replicate 16 5) [116, 101, 115, 116] = .ok o2 ∧
      o1.salt = List.replicate 16 3 ∧ o2.salt = List.replicate 16 5 ∧
      o1.localPub = toyPrims.pubOf [1] ∧
      o2.localPub = toyPrims.pubOf [2] ∧
      o1.salt ≠ o2.salt ∧
      (([1] : List Nat), o1.localPub) ≠ (([2] : List Nat), o2.localPub) ∧
      o1.body ≠ o2.body) ∧
    (∃ o1 o2 : EceOut,
      encryptEce toyPrims .Aes128Gcm
        ⟨List.replicate 65 4, List.replicate 16 9⟩
        [1] (List.replicate 16 3) [116, 101, 115, 116] = .ok o1 ∧
      encryptEce toyPrims .Aes128Gcm
        ⟨List.replicate 65 4, List.replicate 16 9⟩
        [2] (List.replicate 16 5) [116, 101, 115, 116] = .ok o2 ∧
      o1.salt = List.replicate 16 3 ∧ o2.salt = List.replicate 16 5 ∧
      o1.localPub = toyPrims.pubOf [1] ∧
      o2.localPub = toyPrims.pubOf [2] ∧
      o1.salt ≠ o2.salt ∧
      (([1] : List Nat), o1.localPub) ≠ (([2] : List Nat), o2.localPub) ∧
      o1.body ≠ o2.body) :=
  ⟨ece_freshness toyPrims .AesGcm ⟨List.replicate 65 4, List.replicate 16 9⟩
      [1] (List.replicate 16 3) [2] (List.replicate 16 5)
      [116, 101, 115, 116] (by decide) (by decide) (by decide) (by decide)
      (by decide)
      (fun lpa lpb sa sb ha hb hne =>
        toy_salt_inj sa sb (pad .AesGcm [116, 101, 115, 116]) ha hb hne),
   ece_freshness toyPrims .Aes128Gcm
      ⟨List.replicate 65 4, List.replicate 16 9⟩
      [1] (List.replicate 16 3) [2] (List.replicate 16 5)
      [116, 101, 115, 116] (by decide) (by decide) (by decide) (by decide)
      (by decide)
      (fun lpa lpb sa sb ha hb hne =>
        toy_salt_inj sa sb (pad .Aes128Gcm [116, 101, 115, 116]) ha hb hne)⟩
